import Mathlib

/-!
Shallow embedding of the workflow engine (src/state.py, src/workflow.py).

Python dynamic values are modelled by the inductive `Value`; Python dicts by
association lists in insertion order, with `dget` / `dset` / `dupdate`
implementing dict lookup, item assignment and `dict.update`.  The traversal
loop of `WorkflowEngine.execute_workflow` (src/workflow.py lines 43-100) is
embedded as the fuel-indexed function `execLoop`: `Option.none` as a result
means the fuel bound was reached while the loop wanted to continue (the
source places no bound on iteration), `some` wraps the outcome the Python
code produces.  A raised Python exception is modelled by a `failed` outcome
carrying both the error and the state object as it stands when the exception
propagates (in the source the caller can still observe that state object,
since it is mutated in place).

Handlers are modelled as pure functions of the state returning either a
value or a raised error message; no claim below depends on a handler
mutating the state in place.
-/

/-- Python runtime values, restricted to the shapes the engine inspects:
None, bool, int, str, list, dict (string keys, insertion order), and the
coroutine object produced by calling an async function without awaiting. -/
inductive Value where
  | none : Value
  | bool : Bool → Value
  | int : Int → Value
  | str : String → Value
  | list : List Value → Value
  | dict : List (String × Value) → Value
  | coroutine : Value

/-- Python dict lookup `d.get(k)`: first (unique) binding of `k`. -/
def dget {α : Type} : List (String × α) → String → Option α
  | [], _ => Option.none
  | (k1, v) :: rest, k => if k1 = k then some v else dget rest k

/-- Python membership test `k in d`. -/
def dmem {α : Type} (d : List (String × α)) (k : String) : Bool :=
  (dget d k).isSome

/-- Python item assignment `d[k] = v`: overwrite in place, else append
(dict keys keep their original insertion position on overwrite). -/
def dset {α : Type} : List (String × α) → String → α → List (String × α)
  | [], k, v => [(k, v)]
  | (k1, v1) :: rest, k, v =>
      if k1 = k then (k1, v) :: rest else (k1, v1) :: dset rest k v

/-- Python `d.update(u)`: per-key overwrite, new keys appended in order. -/
def dupdate {α : Type} (d u : List (String × α)) : List (String × α) :=
  u.foldl (fun acc kv => dset acc kv.1 kv.2) d

/-- Python `next(iter(d.values()))`: the first value in insertion order. -/
def firstValue {α : Type} (d : List (String × α)) : Option α :=
  d.head?.map Prod.snd

/-- Python truthiness `bool(v)` for the modelled value shapes
(src/workflow.py line 86 applies it to the raw handler result). -/
def pyBool : Value → Bool
  | Value.none => false
  | Value.bool b => b
  | Value.int n => n != 0
  | Value.str s => s != ""
  | Value.list xs => !xs.isEmpty
  | Value.dict d => !d.isEmpty
  | Value.coroutine => true

/-- src/state.py lines 6-10: NodeStatus enum. -/
inductive NodeStatus where
  | pending : NodeStatus
  | running : NodeStatus
  | completed : NodeStatus
  | failed : NodeStatus
deriving DecidableEq

/-- One entry of the execution log (src/state.py lines 21-25).  The
timestamp `datetime.utcnow().isoformat()` is an external clock; it is
modelled as a natural number supplied by the engine, one tick per log. -/
structure LogEntry where
  timestamp : Nat
  level : String
  message : String

/-- src/state.py lines 12-18: the state container threaded through a run. -/
structure WorkflowState where
  data : List (String × Value)
  current_node : Option String
  status : NodeStatus
  execution_log : List LogEntry
  metadata : List (String × Value)

/-- src/state.py lines 20-25: append one log entry (level defaults to INFO
at every call site, passed explicitly here). -/
def WorkflowState.add_log (st : WorkflowState) (ts : Nat)
    (message : String) (level : String) : WorkflowState :=
  { st with execution_log :=
      st.execution_log ++ [{ timestamp := ts, level := level, message := message }] }

/-- src/state.py lines 27-28: `self.data.update(updates)`. -/
def WorkflowState.update_state (st : WorkflowState)
    (updates : List (String × Value)) : WorkflowState :=
  { st with data := dupdate st.data updates }

/-- src/workflow.py lines 6-9: NodeType enum. -/
inductive NodeType where
  | task : NodeType
  | condition : NodeType
  | loop : NodeType
deriving DecidableEq

/-- src/workflow.py lines 11-16: a workflow node. -/
structure Node where
  node_id : String
  node_type : NodeType
  function : String
  next_nodes : List (String × String)

/-- src/workflow.py lines 21-25: a workflow definition. -/
structure WorkflowDefinition where
  name : String
  entry_point : String
  nodes : List (String × Node)

/-- Whether a registered handler was defined with `def` or `async def`. -/
inductive HandlerKind where
  | sync : HandlerKind
  | async : HandlerKind

/-- A registered handler: its kind and the computation its body performs on
the state, returning a value or raising an error message. -/
structure Handler where
  kind : HandlerKind
  body : WorkflowState → Except String Value

/-- src/workflow.py line 73 tests `hasattr(func, \x27__await__\x27)` on the
REGISTERED FUNCTION OBJECT.  In Python, neither a plain function nor a
coroutine function (one defined with `async def`) carries an `__await__`
attribute; only the coroutine OBJECT returned by calling a coroutine
function has it.  Every entry that `register_function` can store is a
function object, so this attribute test is False for every handler. -/
def hasAwaitAttr (_ : Handler) : Bool := false

/-- src/workflow.py line 73:
`result = await func(state) if hasattr(func, \x27__await__\x27) else func(state)`.
When the attribute test fails (which it always does, see `hasAwaitAttr`),
the function is called WITHOUT await: a sync body runs and yields its value
or raises, while calling an `async def` function does not run its body at
all and yields a coroutine object. -/
def callFunc (func : Handler) (state : WorkflowState) : Except String Value :=
  if hasAwaitAttr func then
    func.body state
  else
    match func.kind with
    | HandlerKind.sync => func.body state
    | HandlerKind.async => Except.ok Value.coroutine

/-- src/workflow.py lines 30-32: the engine holds the function registry and
the workflow table. -/
structure WorkflowEngine where
  registry : List (String × Handler)
  workflows : List (String × WorkflowDefinition)

/-- Errors raised inside `execute_workflow` after the state container
exists (all are ValueError in the source, distinguished here by message). -/
inductive EngineError where
  | nodeNotFound : String → EngineError
  | functionNotFound : String → EngineError
  | handlerError : String → EngineError

/-- Message of the ValueError raised at src/workflow.py line 68. -/
def fnNotFoundMsg (fname : String) : String :=
  "Function \x27" ++ fname ++ "\x27 not found in registry"

/-- Log message of src/workflow.py line 80. -/
def okLogMsg (nodeId : String) : String :=
  "Node \x27" ++ nodeId ++ "\x27 completed successfully"

/-- Log message of src/workflow.py line 96 (str(e) appended). -/
def errLogMsg (nodeId : String) (emsg : String) : String :=
  "Error in node \x27" ++ nodeId ++ "\x27: " ++ emsg

/-- src/workflow.py lines 62-63: point the state at the resolved node and
mark it running. -/
def runningAt (st : WorkflowState) (node : Node) : WorkflowState :=
  { st with current_node := some node.node_id, status := NodeStatus.running }

/-- src/workflow.py lines 76-77: merge the raw result into the data bag
only when it is a dict. -/
def mergeResult (st : WorkflowState) (result : Value) : WorkflowState :=
  match result with
  | Value.dict d => st.update_state d
  | _ => st

/-- src/workflow.py lines 76-80: merge, mark completed, append INFO log. -/
def completeNode (st : WorkflowState) (node : Node) (result : Value)
    (clock : Nat) : WorkflowState :=
  WorkflowState.add_log
    { mergeResult st result with status := NodeStatus.completed }
    clock (okLogMsg node.node_id) "INFO"

/-- src/workflow.py lines 94-96: the except branch — mark failed and append
the ERROR log before the exception is re-raised. -/
def failNode (st : WorkflowState) (node : Node) (emsg : String)
    (clock : Nat) : WorkflowState :=
  WorkflowState.add_log
    { st with status := NodeStatus.failed }
    clock (errLogMsg node.node_id emsg) "ERROR"

/-- src/workflow.py line 86: `str(bool(result)).lower()`. -/
def conditionResult (result : Value) : String :=
  if pyBool result then "true" else "false"

/-- src/workflow.py lines 83-91: choose the next node id.  For a Condition
node, look up the stringified truth value of the raw result.  Otherwise
(Task or Loop), when the branch table is non-empty, Python evaluates
`next_nodes.get(\x27default\x27) or next(iter(next_nodes.values()))`:
the `or` falls through to the first entry whenever the default entry is
absent OR maps to a falsy (empty) string. -/
def selectNext (node : Node) (result : Value) : Option String :=
  match node.node_type with
  | NodeType.condition => dget node.next_nodes (conditionResult result)
  | _ =>
      if node.next_nodes.isEmpty then Option.none
      else
        match dget node.next_nodes "default" with
        | some s => if s = "" then firstValue node.next_nodes else some s
        | Option.none => firstValue node.next_nodes

/-- Truthiness of the loop variable `current_node_id` (src/workflow.py
line 57 `while current_node_id:`): Python None and the empty string are
both falsy, everything else continues the loop. -/
def truthyId : Option String → Bool
  | Option.none => false
  | some s => s != ""

/-- Outcome of the while loop: the returned state, or the propagated error
together with the state object as it stands at propagation. -/
inductive LoopOutcome where
  | ok : WorkflowState → LoopOutcome
  | failed : EngineError → WorkflowState → LoopOutcome

/-- The state carried by either outcome. -/
def LoopOutcome.state : LoopOutcome → WorkflowState
  | LoopOutcome.ok st => st
  | LoopOutcome.failed _ st => st

/-- src/workflow.py lines 57-100: the traversal loop, fuel-indexed.
Exiting the loop (falsy `current_node_id`) resets `current_node` to null
and returns the state (lines 99-100).  The missing-node check at lines
58-59 sits OUTSIDE the try block, so its failure leaves the state exactly
as the previous iteration left it.  The missing-function check at lines
67-68 and any handler error sit INSIDE the try block, so the except branch
(lines 94-97) marks the state failed and logs before re-raising. -/
def execLoop (eng : WorkflowEngine) (wf : WorkflowDefinition) :
    Nat → Option String → WorkflowState → Nat → Option LoopOutcome
  | 0, curr, st, _ =>
      if truthyId curr then Option.none
      else some (LoopOutcome.ok { st with current_node := Option.none })
  | fuel + 1, curr, st, clock =>
      match curr with
      | Option.none => some (LoopOutcome.ok { st with current_node := Option.none })
      | some c =>
          if c = "" then some (LoopOutcome.ok { st with current_node := Option.none })
          else
            match dget wf.nodes c with
            | Option.none => some (LoopOutcome.failed (EngineError.nodeNotFound c) st)
            | some node =>
                let st1 := runningAt st node
                match dget eng.registry node.function with
                | Option.none =>
                    some (LoopOutcome.failed (EngineError.functionNotFound node.function)
                      (failNode st1 node (fnNotFoundMsg node.function) clock))
                | some func =>
                    match callFunc func st1 with
                    | Except.error emsg =>
                        some (LoopOutcome.failed (EngineError.handlerError emsg)
                          (failNode st1 node emsg clock))
                    | Except.ok result =>
                        execLoop eng wf fuel (selectNext node result)
                          (completeNode st1 node result clock) (clock + 1)

/-- Result of `execute_workflow`: a returned state, a propagated in-run
error with the state object at propagation, or the WorkflowNotFound
failure raised at src/workflow.py lines 49-50 BEFORE any state container
exists (hence this constructor carries no state). -/
inductive RunResult where
  | ok : WorkflowState → RunResult
  | failed : EngineError → WorkflowState → RunResult
  | workflowNotFound : String → RunResult

/-- src/workflow.py lines 43-100: `execute_workflow`.  The caller passes
the initial data dict (Python defaults `initial_state or {}` to the empty
dict, which the empty association list models). -/
def execute_workflow (eng : WorkflowEngine) (workflow_name : String)
    (initial_state : List (String × Value)) (fuel : Nat) : Option RunResult :=
  match dget eng.workflows workflow_name with
  | Option.none => some (RunResult.workflowNotFound workflow_name)
  | some workflow =>
      let state : WorkflowState :=
        { data := initial_state, current_node := Option.none,
          status := NodeStatus.pending, execution_log := [], metadata := [] }
      match execLoop eng workflow fuel (some workflow.entry_point) state 0 with
      | Option.none => Option.none
      | some (LoopOutcome.ok st) => some (RunResult.ok st)
      | some (LoopOutcome.failed e st) => some (RunResult.failed e st)

/-! Scenario values used by witnesses and counterexamples. -/

/-- A synchronous handler returning a fixed value. -/
def syncRet (v : Value) : Handler :=
  { kind := HandlerKind.sync, body := fun _ => Except.ok v }

/-- A synchronous handler that raises with a fixed message. -/
def raiseH (msg : String) : Handler :=
  { kind := HandlerKind.sync, body := fun _ => Except.error msg }

/-- An asynchronous handler whose body would return a one-key dict. -/
def asyncInc : Handler :=
  { kind := HandlerKind.async, body := fun _ => Except.ok (Value.dict [("n", Value.int 1)]) }

/-- A fresh state container as `execute_workflow` creates it. -/
def initState (initial : List (String × Value)) : WorkflowState :=
  { data := initial, current_node := Option.none, status := NodeStatus.pending,
    execution_log := [], metadata := [] }

/-- A condition node with both branch keys present. -/
def condW : Node :=
  { node_id := "c", node_type := NodeType.condition, function := "f1",
    next_nodes := [("true", "t"), ("false", "f")] }

/-- A task node whose branch table holds a default entry mapping to the
empty string, listed after another entry. -/
def nodeDefaultEmpty : Node :=
  { node_id := "n1", node_type := NodeType.task, function := "f1",
    next_nodes := [("a", "n2"), ("default", "")] }

/-- A terminal task node (empty branch table). -/
def taskTerminal : Node :=
  { node_id := "n2", node_type := NodeType.task, function := "f1", next_nodes := [] }

def wfC2 : WorkflowDefinition :=
  { name := "w2", entry_point := "n1",
    nodes := [("n1", nodeDefaultEmpty), ("n2", taskTerminal)] }

def engC2 : WorkflowEngine :=
  { registry := [("f1", syncRet Value.none)], workflows := [("w2", wfC2)] }

/-- A workflow whose entry point names a node id absent from the graph. -/
def wfC3 : WorkflowDefinition :=
  { name := "w3", entry_point := "missing", nodes := [("n2", taskTerminal)] }

def engC3 : WorkflowEngine :=
  { registry := [], workflows := [("w3", wfC3)] }

/-- A task node whose handler is registered from an `async def` function. -/
def asyncTaskNode : Node :=
  { node_id := "a", node_type := NodeType.task, function := "inc", next_nodes := [] }

def engC4 : WorkflowEngine :=
  { registry := [("inc", asyncInc)],
    workflows := [("w4", { name := "w4", entry_point := "a",
                           nodes := [("a", asyncTaskNode)] })] }

/-- An engine with nothing registered. -/
def engEmpty : WorkflowEngine := { registry := [], workflows := [] }

/-- A condition node whose branch table lacks the "false" key. -/
def condMissingFalse : Node :=
  { node_id := "c", node_type := NodeType.condition, function := "zero",
    next_nodes := [("true", "t")] }

def wfC6 : WorkflowDefinition :=
  { name := "w6", entry_point := "c", nodes := [("c", condMissingFalse)] }

def engC6 : WorkflowEngine :=
  { registry := [("zero", syncRet (Value.int 0))], workflows := [("w6", wfC6)] }

/-- A terminal task node whose handler merges one key. -/
def taskA7 : Node :=
  { node_id := "a", node_type := NodeType.task, function := "m", next_nodes := [] }

def wfC7 : WorkflowDefinition :=
  { name := "w7", entry_point := "a", nodes := [("a", taskA7)] }

def engC7 : WorkflowEngine :=
  { registry := [("m", syncRet (Value.dict [("k", Value.int 1)]))],
    workflows := [("w7", wfC7)] }

/-- Two-node workflow: node a merges a key, node b raises. -/
def nodeGood8 : Node :=
  { node_id := "a", node_type := NodeType.task, function := "good",
    next_nodes := [("default", "b")] }

def nodeBoom8 : Node :=
  { node_id := "b", node_type := NodeType.task, function := "boom", next_nodes := [] }

def wfC8 : WorkflowDefinition :=
  { name := "w8", entry_point := "a", nodes := [("a", nodeGood8), ("b", nodeBoom8)] }

def engC8 : WorkflowEngine :=
  { registry := [("good", syncRet (Value.dict [("x", Value.int 1)])),
                 ("boom", raiseH "boom")],
    workflows := [("w8", wfC8)] }

/-- The state after node a of `wfC8` completed successfully. -/
def stMid8 : WorkflowState :=
  { data := [("x", Value.int 1)], current_node := some "a",
    status := NodeStatus.completed,
    execution_log := [{ timestamp := 0, level := "INFO", message := okLogMsg "a" }],
    metadata := [] }

/-- The state at the moment node b of `wfC8` propagates its failure. -/
def stF8 : WorkflowState :=
  { data := [("x", Value.int 1)], current_node := some "b",
    status := NodeStatus.failed,
    execution_log := [{ timestamp := 0, level := "INFO", message := okLogMsg "a" },
                      { timestamp := 1, level := "ERROR", message := errLogMsg "b" "boom" }],
    metadata := [] }

/-- A registered workflow whose entry point is the empty string. -/
def wfC9 : WorkflowDefinition :=
  { name := "w9", entry_point := "", nodes := [] }

def engC9 : WorkflowEngine :=
  { registry := [], workflows := [("w9", wfC9)] }

/-! Basic lemmas about the dict model. -/

lemma dget_nil {α : Type} (k : String) : dget ([] : List (String × α)) k = Option.none := rfl

lemma dget_dset {α : Type} (d : List (String × α)) (k1 k : String) (v : α) :
    dget (dset d k1 v) k = if k1 = k then some v else dget d k := by
  induction d with
  | nil => simp [dset, dget]
  | cons hd tl ih =>
      obtain ⟨hk, hv⟩ := hd
      by_cases h1 : hk = k1
      · subst h1
        by_cases h2 : hk = k <;> simp [dset, dget, h2]
      · by_cases h2 : hk = k
        · subst h2
          have : ¬ k1 = hk := fun h => h1 h.symm
          simp [dset, dget, h1, this]
        · simp [dset, dget, h1, h2, ih]

lemma dmem_dset_mono {α : Type} (d : List (String × α)) (k1 k : String) (v : α)
    (h : dmem d k = true) : dmem (dset d k1 v) k = true := by
  unfold dmem at h ⊢
  rw [dget_dset]
  split
  · rfl
  · exact h

lemma dmem_dupdate_mono {α : Type} (u d : List (String × α)) (k : String)
    (h : dmem d k = true) : dmem (dupdate d u) k = true := by
  induction u generalizing d with
  | nil => exact h
  | cons hd tl ih =>
      show dmem (List.foldl _ _ _) k = true
      rw [List.foldl_cons]
      exact ih (dset d hd.1 hd.2) (dmem_dset_mono d hd.1 k hd.2 h)

/-! Basic unfolding lemmas for the traversal loop. -/

lemma execLoop_exit (eng : WorkflowEngine) (wf : WorkflowDefinition)
    (fuel : Nat) (curr : Option String) (st : WorkflowState) (clock : Nat)
    (h : truthyId curr = false) :
    execLoop eng wf fuel curr st clock
      = some (LoopOutcome.ok { st with current_node := Option.none }) := by
  cases fuel with
  | zero => simp [execLoop, h]
  | succ n =>
      cases curr with
      | none => rfl
      | some s =>
          have hs : s = "" := by simpa [truthyId] using h
          subst hs
          simp [execLoop]

lemma execLoop_missing_node (eng : WorkflowEngine) (wf : WorkflowDefinition)
    (fuel : Nat) (c : String) (st : WorkflowState) (clock : Nat)
    (hc : c ≠ "") (hn : dget wf.nodes c = Option.none) :
    execLoop eng wf (fuel + 1) (some c) st clock
      = some (LoopOutcome.failed (EngineError.nodeNotFound c) st) := by
  simp [execLoop, hc, hn]

lemma execLoop_step_ok (eng : WorkflowEngine) (wf : WorkflowDefinition)
    (fuel : Nat) (c : String) (st : WorkflowState) (clock : Nat)
    (node : Node) (func : Handler) (result : Value)
    (hc : c ≠ "") (hn : dget wf.nodes c = some node)
    (hf : dget eng.registry node.function = some func)
    (hr : callFunc func (runningAt st node) = Except.ok result) :
    execLoop eng wf (fuel + 1) (some c) st clock
      = execLoop eng wf fuel (selectNext node result)
          (completeNode (runningAt st node) node result clock) (clock + 1) := by
  simp [execLoop, hc, hn, hf, hr]

lemma mergeResult_log (st : WorkflowState) (r : Value) :
    (mergeResult st r).execution_log = st.execution_log := by
  cases r <;> rfl

lemma completeNode_log (st : WorkflowState) (node : Node) (r : Value) (clock : Nat) :
    (completeNode st node r clock).execution_log
      = st.execution_log
        ++ [{ timestamp := clock, level := "INFO", message := okLogMsg node.node_id }] := by
  cases r <;> rfl

lemma completeNode_data (st : WorkflowState) (node : Node) (r : Value) (clock : Nat) :
    (completeNode st node r clock).data = (mergeResult st r).data := by
  cases r <;> rfl

lemma completeNode_status (st : WorkflowState) (node : Node) (r : Value) (clock : Nat) :
    (completeNode st node r clock).status = NodeStatus.completed := by
  cases r <;> rfl

lemma failNode_data (st : WorkflowState) (node : Node) (m : String) (clock : Nat) :
    (failNode st node m clock).data = st.data := rfl

lemma failNode_log (st : WorkflowState) (node : Node) (m : String) (clock : Nat) :
    (failNode st node m clock).execution_log
      = st.execution_log
        ++ [{ timestamp := clock, level := "ERROR", message := errLogMsg node.node_id m }] := rfl

lemma dmem_mergeResult (st : WorkflowState) (r : Value) (k : String)
    (h : dmem st.data k = true) : dmem (mergeResult st r).data k = true := by
  cases r <;> simp [mergeResult, WorkflowState.update_state] <;>
    first
      | exact h
      | exact dmem_dupdate_mono _ _ _ h

/-- Combined run invariant: along the loop, keys present in the data bag
stay present (merging only adds or overwrites keys, the except branch only
touches status and log), and the log only grows at the end. -/
lemma execLoop_preserves (eng : WorkflowEngine) (wf : WorkflowDefinition) :
    ∀ (fuel : Nat) (curr : Option String) (st : WorkflowState) (clock : Nat)
      (out : LoopOutcome),
      execLoop eng wf fuel curr st clock = some out →
      (∀ k, dmem st.data k = true → dmem (LoopOutcome.state out).data k = true)
      ∧ (∃ t, (LoopOutcome.state out).execution_log = st.execution_log ++ t) := by
  intro fuel
  induction fuel with
  | zero =>
      intro curr st clock out h
      by_cases ht : truthyId curr
      · simp [execLoop, ht] at h
      · simp [execLoop, ht] at h
        subst h
        exact ⟨fun k hk => hk, ⟨[], by simp [LoopOutcome.state]⟩⟩
  | succ n ih =>
      intro curr st clock out h
      cases curr with
      | none =>
          simp [execLoop] at h
          subst h
          exact ⟨fun k hk => hk, ⟨[], by simp [LoopOutcome.state]⟩⟩
      | some c =>
          by_cases hc : c = ""
          · subst hc
            simp [execLoop] at h
            subst h
            exact ⟨fun k hk => hk, ⟨[], by simp [LoopOutcome.state]⟩⟩
          · simp only [execLoop] at h
            rw [if_neg hc] at h
            cases hn : dget wf.nodes c with
            | none =>
                rw [hn] at h
                simp at h
                subst h
                exact ⟨fun k hk => hk, ⟨[], by simp [LoopOutcome.state]⟩⟩
            | some node =>
                rw [hn] at h
                simp only [] at h
                cases hf : dget eng.registry node.function with
                | none =>
                    rw [hf] at h
                    simp only [] at h
                    simp at h
                    subst h
                    exact ⟨fun k hk => hk, ⟨_, rfl⟩⟩
                | some func =>
                    rw [hf] at h
                    simp only [] at h
                    cases hr : callFunc func (runningAt st node) with
                    | error emsg =>
                        rw [hr] at h
                        simp only [] at h
                        simp at h
                        subst h
                        exact ⟨fun k hk => hk, ⟨_, rfl⟩⟩
                    | ok result =>
                        rw [hr] at h
                        simp only [] at h
                        have hrec := ih (selectNext node result)
                          (completeNode (runningAt st node) node result clock)
                          (clock + 1) out h
                        constructor
                        · intro k hk
                          apply hrec.1 k
                          rw [completeNode_data]
                          exact dmem_mergeResult (runningAt st node) result k hk
                        · obtain ⟨t, htl⟩ := hrec.2
                          refine ⟨{ timestamp := clock, level := "INFO",
                                    message := okLogMsg node.node_id } :: t, ?_⟩
                          rw [htl, completeNode_log]
                          simp [runningAt]

/-- C1: for every Condition node, the next node is selected by the Python
truthiness of the raw handler result: a value is true unless it is an
explicit false, a numeric zero, an empty string, an empty sequence, an
empty mapping, or the null marker; in particular an empty mapping takes the
"false" branch even though merging it into the data bag is a no-op. -/
theorem C1_condition_truthiness :
    (∀ v : Value, pyBool v = false ↔
        (v = Value.none ∨ v = Value.bool false ∨ v = Value.int 0 ∨ v = Value.str ""
          ∨ v = Value.list [] ∨ v = Value.dict []))
    ∧ (∀ (node : Node) (v : Value), node.node_type = NodeType.condition →
        selectNext node v = dget node.next_nodes (if pyBool v then "true" else "false"))
    ∧ (∀ node : Node, node.node_type = NodeType.condition →
        selectNext node (Value.dict []) = dget node.next_nodes "false")
    ∧ (∀ st : WorkflowState, mergeResult st (Value.dict []) = st) := by
  refine ⟨?_, ?_, ?_, fun st => rfl⟩
  · intro v
    cases v <;> simp [pyBool]
  · intro node v ht
    simp [selectNext, ht, conditionResult]
  · intro node ht
    simp [selectNext, ht, conditionResult, pyBool]

/-- Witness for C1 at a concrete condition node and the empty mapping. -/
theorem C1_condition_truthiness_witness :
    selectNext condW (Value.dict []) = dget condW.next_nodes "false" :=
  C1_condition_truthiness.2.2.1 condW rfl

/-- C2 fails as stated: `nodeDefaultEmpty` is a Task node whose branch
table contains "default" (mapping to the empty string), yet the selected
next node is "n2", the first entry, not branches["default"]; the full run
then visits and completes node n2 instead of stopping. -/
theorem C2_counterexample :
    nodeDefaultEmpty.node_type = NodeType.task
    ∧ dget nodeDefaultEmpty.next_nodes "default" = some ""
    ∧ selectNext nodeDefaultEmpty Value.none = some "n2"
    ∧ selectNext nodeDefaultEmpty Value.none ≠ dget nodeDefaultEmpty.next_nodes "default"
    ∧ execute_workflow engC2 "w2" [] 5
      = some (RunResult.ok
          { data := [], current_node := Option.none, status := NodeStatus.completed,
            execution_log := [{ timestamp := 0, level := "INFO", message := okLogMsg "n1" },
                              { timestamp := 1, level := "INFO", message := okLogMsg "n2" }],
            metadata := [] }) := by
  refine ⟨rfl, rfl, rfl, by decide, rfl⟩

/-- C2 amended: for a Task or Loop node, branches["default"] is followed
only when its target is non-empty; when "default" is absent or maps to the
empty string, the first entry of a non-empty branch table is selected; an
empty branch table yields null. -/
theorem C2_amended_default_selection (node : Node) (v : Value)
    (hk : node.node_type = NodeType.task ∨ node.node_type = NodeType.loop) :
    (∀ t, dget node.next_nodes "default" = some t → t ≠ "" → selectNext node v = some t)
    ∧ (dget node.next_nodes "default" = some "" →
        selectNext node v = firstValue node.next_nodes)
    ∧ (dget node.next_nodes "default" = Option.none → node.next_nodes ≠ [] →
        selectNext node v = firstValue node.next_nodes)
    ∧ (node.next_nodes = [] → selectNext node v = Option.none) := by
  have hsel : selectNext node v
      = (if node.next_nodes.isEmpty then Option.none
         else
           match dget node.next_nodes "default" with
           | some s => if s = "" then firstValue node.next_nodes else some s
           | Option.none => firstValue node.next_nodes) := by
    rcases hk with h | h <;> simp [selectNext, h]
  refine ⟨?_, ?_, ?_, ?_⟩
  · intro t hdt htne
    have hne : node.next_nodes ≠ [] := by
      intro h0
      rw [h0] at hdt
      exact Option.noConfusion hdt
    have hie : node.next_nodes.isEmpty = false := by
      cases h0 : node.next_nodes with
      | nil => exact absurd h0 hne
      | cons a l => rfl
    rw [hsel]
    simp [hdt, hie, htne]
  · intro hdt
    have hne : node.next_nodes ≠ [] := by
      intro h0
      rw [h0] at hdt
      exact Option.noConfusion hdt
    have hie : node.next_nodes.isEmpty = false := by
      cases h0 : node.next_nodes with
      | nil => exact absurd h0 hne
      | cons a l => rfl
    rw [hsel]
    simp [hdt, hie]
  · intro hdt hne
    have hie : node.next_nodes.isEmpty = false := by
      cases h0 : node.next_nodes with
      | nil => exact absurd h0 hne
      | cons a l => rfl
    rw [hsel]
    simp [hdt, hie]
  · intro h0
    rw [hsel]
    simp [h0]

/-- Witness for the amended C2 at the concrete counterexample node. -/
theorem C2_amended_witness :
    selectNext nodeDefaultEmpty Value.none = firstValue nodeDefaultEmpty.next_nodes :=
  (C2_amended_default_selection nodeDefaultEmpty Value.none (Or.inl rfl)).2.1 rfl

/-- C3 fails as stated: running `wfC3`, whose entry point "missing" is
absent from the graph, propagates NodeNotFound, but the state is returned
with status still Pending (not Failed), an empty execution log (no ERROR
entry), and current_node still null (not the missing id): the check at
src/workflow.py lines 58-59 sits outside the try/except block. -/
theorem C3_counterexample :
    execute_workflow engC3 "w3" [] 5
      = some (RunResult.failed (EngineError.nodeNotFound "missing") (initState []))
    ∧ (initState []).status = NodeStatus.pending
    ∧ (initState []).status ≠ NodeStatus.failed
    ∧ (initState []).execution_log = []
    ∧ (initState []).current_node ≠ some "missing" := by
  refine ⟨rfl, rfl, by decide, rfl, by decide⟩

/-- C3 amended: when the current node id is absent from the graph, the run
fails with NodeNotFound, and the failure is raised before the per-node
exception handler: the state is propagated exactly as the previous
iteration left it — status, execution log and current_node unchanged (so no
Failed status, no ERROR entry, and current_node never points at the missing
id). -/
theorem C3_amended_node_not_found (eng : WorkflowEngine) (wf : WorkflowDefinition)
    (fuel : Nat) (c : String) (st : WorkflowState) (clock : Nat)
    (hc : c ≠ "") (hn : dget wf.nodes c = Option.none) :
    execLoop eng wf (fuel + 1) (some c) st clock
      = some (LoopOutcome.failed (EngineError.nodeNotFound c) st) := by
  simp [execLoop, hc, hn]

/-- Witness for the amended C3 at the concrete missing entry point. -/
theorem C3_amended_witness :
    execLoop engC3 wfC3 1 (some "missing") (initState []) 0
      = some (LoopOutcome.failed (EngineError.nodeNotFound "missing") (initState [])) :=
  C3_amended_node_not_found engC3 wfC3 0 "missing" (initState []) 0 (by decide) rfl

/-- C4: the engine never awaits a handler registered from an `async def`
function, because the awaitability test `hasattr(func, \x27__await__\x27)`
at src/workflow.py line 73 inspects the function object (which has no
`__await__`) rather than the coroutine it returns.  Evaluated at the
failing input: the async handler `asyncInc`, whose body would return the
dict n=1, yields a raw coroutine object, so the dict is never merged into
the data (final data is empty) and the raw result is unconditionally
truthy. -/
theorem C4_async_handler_not_awaited :
    hasAwaitAttr asyncInc = false
    ∧ asyncInc.body (runningAt (initState []) asyncTaskNode)
        = Except.ok (Value.dict [("n", Value.int 1)])
    ∧ callFunc asyncInc (runningAt (initState []) asyncTaskNode)
        = Except.ok Value.coroutine
    ∧ pyBool Value.coroutine = true
    ∧ execute_workflow engC4 "w4" [] 3
      = some (RunResult.ok
          { data := [], current_node := Option.none, status := NodeStatus.completed,
            execution_log := [{ timestamp := 0, level := "INFO", message := okLogMsg "a" }],
            metadata := [] }) :=
  ⟨rfl, rfl, rfl, rfl, rfl⟩

/-- C5: executing an unregistered workflow name fails with WorkflowNotFound
before any other effect: the result carries no state container and no node
is visited. -/
theorem C5_unregistered_workflow (eng : WorkflowEngine) (workflow_name : String)
    (initial : List (String × Value)) (fuel : Nat)
    (h : dget eng.workflows workflow_name = Option.none) :
    execute_workflow eng workflow_name initial fuel
      = some (RunResult.workflowNotFound workflow_name) := by
  unfold execute_workflow
  rw [h]

/-- Witness for C5 on the empty engine. -/
theorem C5_unregistered_workflow_witness :
    execute_workflow engEmpty "nope" [] 3 = some (RunResult.workflowNotFound "nope") :=
  C5_unregistered_workflow engEmpty "nope" [] 3 rfl

/-- C6: a Condition node whose chosen branch key (per the truthiness of the
raw result) is absent from its branch table makes next null: the loop exits
as a normal terminal, returning the state with current_node null and the
last-set status, Completed. -/
theorem C6_condition_missing_branch_terminal (eng : WorkflowEngine)
    (wf : WorkflowDefinition) (fuel : Nat) (c : String) (st : WorkflowState)
    (clock : Nat) (node : Node) (func : Handler) (v : Value)
    (hc : c ≠ "") (hn : dget wf.nodes c = some node)
    (ht : node.node_type = NodeType.condition)
    (hf : dget eng.registry node.function = some func)
    (hr : callFunc func (runningAt st node) = Except.ok v)
    (hb : dget node.next_nodes (conditionResult v) = Option.none) :
    execLoop eng wf (fuel + 1) (some c) st clock
      = some (LoopOutcome.ok
          { completeNode (runningAt st node) node v clock with
              current_node := Option.none })
    ∧ (completeNode (runningAt st node) node v clock).status = NodeStatus.completed := by
  refine ⟨?_, completeNode_status _ _ _ _⟩
  rw [execLoop_step_ok eng wf fuel c st clock node func v hc hn hf hr]
  have hsel : selectNext node v = Option.none := by
    simp [selectNext, ht, hb]
  rw [hsel]
  exact execLoop_exit eng wf fuel Option.none _ (clock + 1) rfl

/-- Witness for C6: condition handler returning the falsy 0 with no
"false" branch registered. -/
theorem C6_condition_missing_branch_witness :
    execLoop engC6 wfC6 1 (some "c") (initState []) 0
      = some (LoopOutcome.ok
          { completeNode (runningAt (initState []) condMissingFalse) condMissingFalse
              (Value.int 0) 0 with current_node := Option.none }) :=
  (C6_condition_missing_branch_terminal engC6 wfC6 0 "c" (initState []) 0
    condMissingFalse (syncRet (Value.int 0)) (Value.int 0)
    (by decide) rfl rfl rfl rfl rfl).1

/-- C7: a Task node with an empty branch table is terminal: after its
handler returns a mapping, the loop exits with current_node null, status
Completed, and the data bag equal to the previous data merged with the
mapping. -/
theorem C7_task_empty_branches_terminal (eng : WorkflowEngine)
    (wf : WorkflowDefinition) (fuel : Nat) (c : String) (st : WorkflowState)
    (clock : Nat) (node : Node) (func : Handler) (d : List (String × Value))
    (hc : c ≠ "") (hn : dget wf.nodes c = some node)
    (ht : node.node_type = NodeType.task) (hb : node.next_nodes = [])
    (hf : dget eng.registry node.function = some func)
    (hr : callFunc func (runningAt st node) = Except.ok (Value.dict d)) :
    execLoop eng wf (fuel + 1) (some c) st clock
      = some (LoopOutcome.ok
          { completeNode (runningAt st node) node (Value.dict d) clock with
              current_node := Option.none })
    ∧ (completeNode (runningAt st node) node (Value.dict d) clock).data
        = dupdate st.data d
    ∧ (completeNode (runningAt st node) node (Value.dict d) clock).status
        = NodeStatus.completed := by
  refine ⟨?_, ?_, completeNode_status _ _ _ _⟩
  · rw [execLoop_step_ok eng wf fuel c st clock node func (Value.dict d) hc hn hf hr]
    have hsel : selectNext node (Value.dict d) = Option.none := by
      simp [selectNext, ht, hb]
    rw [hsel]
    exact execLoop_exit eng wf fuel Option.none _ (clock + 1) rfl
  · rw [completeNode_data]
    rfl

/-- Witness for C7 on a one-node workflow whose handler merges one key. -/
theorem C7_task_empty_branches_witness :
    execLoop engC7 wfC7 1 (some "a") (initState []) 0
      = some (LoopOutcome.ok
          { completeNode (runningAt (initState []) taskA7) taskA7
              (Value.dict [("k", Value.int 1)]) 0 with current_node := Option.none }) :=
  (C7_task_empty_branches_terminal engC7 wfC7 0 "a" (initState []) 0 taskA7
    (syncRet (Value.dict [("k", Value.int 1)])) [("k", Value.int 1)]
    (by decide) rfl rfl rfl rfl rfl).1

/-- C8: when a node fails, every key present in the data bag at any earlier
point of the run — in particular every key merged by previously completed
nodes — is still present in the data bag of the state carried by the
propagated failure: the engine performs no rollback of prior merges. -/
theorem C8_no_rollback_on_failure (eng : WorkflowEngine) (wf : WorkflowDefinition)
    (fuel : Nat) (curr : Option String) (st : WorkflowState) (clock : Nat)
    (e : EngineError) (stF : WorkflowState) (k : String)
    (hrun : execLoop eng wf fuel curr st clock = some (LoopOutcome.failed e stF))
    (hk : dmem st.data k = true) :
    dmem stF.data k = true :=
  (execLoop_preserves eng wf fuel curr st clock (LoopOutcome.failed e stF) hrun).1 k hk

/-- Witness for C8: key x merged by node a of `wfC8` survives the failure
of node b. -/
theorem C8_no_rollback_witness : dmem stF8.data "x" = true :=
  C8_no_rollback_on_failure engC8 wfC8 1 (some "b") stMid8 1
    (EngineError.handlerError "boom") stF8 "x" rfl rfl

/-- C9: the loop terminates on any falsy next id, not only null — the empty
string also ends traversal; in particular a registered workflow whose entry
point is the empty string returns normally with status Pending, null
current_node, an empty log and the initial data, raising no NodeNotFound. -/
theorem C9_falsy_id_terminates :
    (∀ (eng : WorkflowEngine) (wf : WorkflowDefinition) (fuel : Nat)
        (st : WorkflowState) (clock : Nat),
        execLoop eng wf fuel Option.none st clock
          = some (LoopOutcome.ok { st with current_node := Option.none })
        ∧ execLoop eng wf fuel (some "") st clock
          = some (LoopOutcome.ok { st with current_node := Option.none }))
    ∧ (∀ (eng : WorkflowEngine) (name : String) (wf : WorkflowDefinition)
        (init : List (String × Value)) (fuel : Nat),
        dget eng.workflows name = some wf → wf.entry_point = "" →
        execute_workflow eng name init fuel = some (RunResult.ok (initState init))) := by
  constructor
  · intro eng wf fuel st clock
    exact ⟨execLoop_exit eng wf fuel Option.none st clock rfl,
           execLoop_exit eng wf fuel (some "") st clock rfl⟩
  · intro eng name wf init fuel h1 h2
    unfold execute_workflow
    rw [h1]
    simp only []
    rw [h2, execLoop_exit eng wf fuel (some "") _ 0 rfl]
    rfl

/-- Witness for C9 on a registered workflow with empty entry point. -/
theorem C9_falsy_id_terminates_witness :
    execute_workflow engC9 "w9" [("a", Value.int 2)] 7
      = some (RunResult.ok (initState [("a", Value.int 2)])) :=
  C9_falsy_id_terminates.2 engC9 "w9" wfC9 [("a", Value.int 2)] 7 rfl rfl

/-- C10: the execution log is append-only: add_log only appends one
{timestamp, level, message} entry at the end, and across any number of
engine steps the log of the resulting state extends the starting log as a
prefix — no existing entry is modified, reordered or removed. -/
theorem C10_log_append_only :
    (∀ (st : WorkflowState) (ts : Nat) (message level : String),
        (st.add_log ts message level).execution_log
          = st.execution_log
            ++ [{ timestamp := ts, level := level, message := message }])
    ∧ (∀ (eng : WorkflowEngine) (wf : WorkflowDefinition) (fuel : Nat)
        (curr : Option String) (st : WorkflowState) (clock : Nat)
        (out : LoopOutcome),
        execLoop eng wf fuel curr st clock = some out →
        ∃ t, (LoopOutcome.state out).execution_log = st.execution_log ++ t) :=
  ⟨fun _ _ _ _ => rfl,
   fun eng wf fuel curr st clock out h =>
     (execLoop_preserves eng wf fuel curr st clock out h).2⟩

/-- Witness for C10: one add_log call and one concrete failing run. -/
theorem C10_log_append_only_witness :
    ((initState []).add_log 5 "m" "INFO").execution_log
      = (initState []).execution_log
        ++ [{ timestamp := 5, level := "INFO", message := "m" }]
    ∧ ∃ t, (LoopOutcome.state
          (LoopOutcome.failed (EngineError.handlerError "boom") stF8)).execution_log
        = stMid8.execution_log ++ t :=
  ⟨C10_log_append_only.1 (initState []) 5 "m" "INFO",
   C10_log_append_only.2 engC8 wfC8 1 (some "b") stMid8 1
     (LoopOutcome.failed (EngineError.handlerError "boom") stF8) rfl⟩
